import Mathlib

/-
Verification of the user controller of the Updog social-network backend
(src/backend/server/controllers/user.js), shallowly embedded in Lean 4.

The controller logic itself is translated from the source file.  The
collaborators it imports (the Sequelize model registry, the Authentication
middleware and the Activity enum) are not part of the sources; those pieces
are modelled from the specification document and carry a doc comment saying
so.  Machine integers do not occur: ids, timestamps and row counts are
natural numbers; strings are Lean strings.
-/

namespace Updog

/-- A stored user record.  The password field holds the stored digest, never
the plaintext (the model layer hashes on create). -/
structure User where
  id : Nat
  username : String
  nickname : String
  email : String
  password : String
deriving DecidableEq

/-- A post row: id, author (a user id) and creation timestamp. -/
structure Post where
  id : Nat
  author : Nat
  createdAt : Nat
deriving DecidableEq

/-- A share record: its own id, the sharing user id, the referenced post id
and the creation timestamp of the share event. -/
structure SharedPost where
  id : Nat
  userID : Nat
  postId : Nat
  createdAt : Nat
deriving DecidableEq

/-- A like record: its own id, the liking user id, the referenced post id and
the creation timestamp of the like event. -/
structure LikedPost where
  id : Nat
  userID : Nat
  postId : Nat
  createdAt : Nat
deriving DecidableEq

/-- The relational store backing the controller: one table per entity. -/
structure Store where
  users : List User
  posts : List Post
  sharedPost : List SharedPost
  likedPost : List LikedPost
deriving DecidableEq

/-- Modelled from the spec: the model registry (src/backend/database/models is
not among the sources) registers exactly the entities of the data model:
users, posts, sharedPost and likedPost.  Member access on the registry with
any other name yields undefined. -/
def registeredModels : List String := ["users", "posts", "sharedPost", "likedPost"]

/-- Modelled from the spec: the credential service hashes a password with a
one-way function; equal inputs verify, distinct inputs do not.  The digest is
tagged so that it never equals the plaintext. -/
def hashPassword (p : String) : String := "hashed:" ++ p

/-- Modelled from the spec: validatePassword verifies a candidate password
against the stored digest. -/
def validatePassword (u : User) (candidate : String) : Bool :=
  u.password == hashPassword candidate

/-- Modelled from the spec: an auth token is an opaque value binding a user
id; a malformed value decodes to no identity. -/
inductive Token where
  | issued (id : Nat)
  | malformed (raw : String)
deriving DecidableEq

/-- Modelled from the spec: Authentication.generateAuthToken issues a token
binding the id of the given user. -/
def generateAuthToken (u : User) : Token := Token.issued u.id

/-- Modelled from the spec: Authentication.extractUser decodes a token back
to the identity it binds; an absent or malformed token yields no identity
(the controller tests the result for truthiness). -/
def extractUser : Option Token → Option Nat
  | some (Token.issued id) => some id
  | _ => none

/-- Modelled from the spec: the store validates the email against an address
grammar at the persistence boundary (the validator lives in the model layer,
outside the sources); approximated as requiring an at-sign, which classifies
every concrete email appearing in the sources and tests correctly. -/
def validEmail (email : String) : Bool := email.data.contains '@'

/-- models.users.findOne with a username equality condition: first matching
row, if any. -/
def findUserByUsername (store : Store) (name : String) : Option User :=
  store.users.find? (fun u => u.username == name)

/-- models.users.findOne with an email equality condition: first matching
row, if any. -/
def findUserByEmail (store : Store) (email : String) : Option User :=
  store.users.find? (fun u => u.email == email)

/-- The activity kinds of the Activity enum. -/
inductive ActivityKind where
  | POSTED
  | SHARED
  | LIKED
deriving DecidableEq

/-- Modelled from the spec: an ActivityEntry is the derived record produced
by Activity.convertToActivity, holding a kind, a post id and a timestamp. -/
structure ActivityEntry where
  kind : ActivityKind
  postId : Nat
  timestamp : Nat
deriving DecidableEq

/-- Modelled from the spec: Activity.convertToActivity builds an entry from
its three components. -/
def convertToActivity (kind : ActivityKind) (postId : Nat) (timestamp : Nat) : ActivityEntry :=
  ⟨kind, postId, timestamp⟩

/-- The bodies the controller sends, one constructor per shape appearing in
the source: an error object, an error-message object, plain text, a message
with an auth token, an activity array, and a caught thrown error. -/
inductive Body where
  | errorField (msg : String)
  | errorMessageField (msg : String)
  | text (msg : String)
  | messageWithToken (msg : String) (authToken : Token)
  | activityList (entries : List ActivityEntry)
  | thrownError (descr : String)
deriving DecidableEq

/-- An HTTP response: status code and body. -/
structure Response where
  status : Nat
  body : Body
deriving DecidableEq

/-- The store operations addUser can perform, recorded in order so that
reachability of the email lookup and of the insert can be stated. -/
inductive StoreOp where
  | findByUsername (username : String)
  | findByEmail (email : String)
  | insertUser (u : User)
deriving DecidableEq

/-- The request body of addUser. -/
structure CreateBody where
  username : String
  nickname : String
  email : String
  password : String
deriving DecidableEq

/-- addUser from the source: look up the username; if taken answer 409, else
look up the email; if taken answer 409, else create the row (the model layer
validates the email and hashes the password; a validation failure throws and
is caught as a 500) and answer 201 with a token for the created user.
Returns the operation trace, the response and the resulting store. -/
def addUser (store : Store) (body : CreateBody) (nextId : Nat) :
    List StoreOp × Response × Store :=
  match findUserByUsername store body.username with
  | some _ =>
    ([StoreOp.findByUsername body.username],
     ⟨409, Body.errorField "Username already taken"⟩, store)
  | none =>
    match findUserByEmail store body.email with
    | some _ =>
      ([StoreOp.findByUsername body.username, StoreOp.findByEmail body.email],
       ⟨409, Body.errorField "Email has already been taken"⟩, store)
    | none =>
      if validEmail body.email then
        let created : User :=
          ⟨nextId, body.username, body.nickname, body.email, hashPassword body.password⟩
        ([StoreOp.findByUsername body.username, StoreOp.findByEmail body.email,
          StoreOp.insertUser created],
         ⟨201, Body.messageWithToken "User successfully created" (generateAuthToken created)⟩,
         { store with users := store.users ++ [created] })
      else
        ([StoreOp.findByUsername body.username, StoreOp.findByEmail body.email],
         ⟨500, Body.thrownError "ValidationError: The email address you entered is invalid"⟩,
         store)

/-- authenticateUser from the source: look up the user by email; if no user
matches or the password does not validate, answer 401 with the fixed error
string; otherwise answer 200 with a fresh token for the user. -/
def authenticateUser (store : Store) (email password : String) : Response :=
  match findUserByEmail store email with
  | none => ⟨401, Body.errorField "Incorrect email or password"⟩
  | some user =>
    if validatePassword user password then
      ⟨200, Body.messageWithToken "Authentication successful" (generateAuthToken user)⟩
    else
      ⟨401, Body.errorField "Incorrect email or password"⟩

/-- The 400 send the handlers make when no Authorization header is present.
The source has no return after this send, so it is a list that later sends
are appended to: the full value of a handler is the list of sends it makes,
in order, and the client observes the first one. -/
def missingTokenSends (authToken : Option Token) : List Response :=
  if authToken.isNone then [⟨400, Body.errorMessageField "Auth token not provided"⟩] else []

/-- The comparator of the activity sort, as the keep-before relation of a
stable sort: the source comparator answers 1 (a after b) exactly when the
timestamp of a is strictly smaller, and never answers 0. -/
def activityLe (a b : ActivityEntry) : Bool :=
  !(decide (a.timestamp < b.timestamp))

/-- The POSTED entries: every post whose author is the target, mapped to an
entry carrying the post id and the post creation timestamp. -/
def postsActivity (store : Store) (target : User) : List ActivityEntry :=
  (store.posts.filter (fun p => p.author == target.id)).map
    (fun p => convertToActivity ActivityKind.POSTED p.id p.createdAt)

/-- The SHARED entries: every share record of the target, mapped to an entry
carrying the referenced post id and the share creation timestamp. -/
def sharedPostsActivity (store : Store) (target : User) : List ActivityEntry :=
  (store.sharedPost.filter (fun sp => sp.userID == target.id)).map
    (fun sp => convertToActivity ActivityKind.SHARED sp.postId sp.createdAt)

/-- The LIKED entries: every like record of the target, mapped to an entry
carrying the referenced post id and the like creation timestamp. -/
def likedPostsActivity (store : Store) (target : User) : List ActivityEntry :=
  (store.likedPost.filter (fun lp => lp.userID == target.id)).map
    (fun lp => convertToActivity ActivityKind.LIKED lp.postId lp.createdAt)

/-- The merged feed of the source: concatenate POSTED, LIKED, SHARED in that
order, then sort with the comparator.  The sort of the runtime is stable and
the comparator never asks to move an entry across one with an equal
timestamp, embedded as a stable merge sort under activityLe. -/
def mergedActivity (store : Store) (target : User) : List ActivityEntry :=
  (postsActivity store target ++ likedPostsActivity store target ++
    sharedPostsActivity store target).mergeSort activityLe

/-- getUserActivity from the source: resolve the target, send 400 when the
token is absent (without returning), 401 when it decodes to no identity;
otherwise read the three activity sources of the target and answer 200 with
the merged feed.  When the target does not exist the source reads the id of
a null record and the thrown error is caught as a 500. -/
def getUserActivity (store : Store) (username : String) (authToken : Option Token) :
    List Response :=
  missingTokenSends authToken ++
    match extractUser authToken with
    | none => [⟨401, Body.errorMessageField "Auth token invalid"⟩]
    | some _ =>
      match findUserByUsername store username with
      | none => [⟨500, Body.thrownError "TypeError: cannot read id of null"⟩]
      | some target => [⟨200, Body.activityList (mergedActivity store target)⟩]

/-- The request body of modifyUserByUsername. -/
structure UpdateBody where
  nickname : String
  email : String
  password : String
deriving DecidableEq

/-- modifyUserByUsername from the source: resolve the target, send 400 when
the token is absent (without returning), 401 when it decodes to no identity,
404 when the target does not exist; otherwise call update on the
userOfInterest member of the model registry.  That member is not a
registered model, so in the source the access yields undefined, the call
throws and is caught as a 500 that sends the error; the registered branch
records what an update on a registered model would do.  Returns the sends
and the resulting store. -/
def modifyUserByUsername (store : Store) (username : String) (authToken : Option Token)
    (body : UpdateBody) : List Response × Store :=
  match extractUser authToken with
  | none =>
    (missingTokenSends authToken ++ [⟨401, Body.errorMessageField "Auth token invalid"⟩], store)
  | some _ =>
    match findUserByUsername store username with
    | none =>
      (missingTokenSends authToken ++ [⟨404, Body.text "Invalid username."⟩], store)
    | some _ =>
      if registeredModels.contains "userOfInterest" then
        (missingTokenSends authToken ++ [⟨200, Body.text "The profile has been updated."⟩],
         { store with users := store.users.map (fun u =>
            if u.username == username then
              { u with nickname := body.nickname, email := body.email, password := body.password }
            else u) })
      else
        (missingTokenSends authToken ++
          [⟨500, Body.thrownError "TypeError: cannot read update of undefined"⟩], store)

/-- deleteUserByUsername from the source: resolve the target, send 400 when
the token is absent (without returning), 401 when it decodes to no identity,
404 when the target does not exist; otherwise destroy the rows matching the
username and answer 200 when the destroyed count is nonzero, 500 otherwise.
Returns the sends and the resulting store. -/
def deleteUserByUsername (store : Store) (username : String) (authToken : Option Token) :
    List Response × Store :=
  match extractUser authToken with
  | none =>
    (missingTokenSends authToken ++ [⟨401, Body.errorMessageField "Auth token invalid"⟩], store)
  | some _ =>
    match findUserByUsername store username with
    | none =>
      (missingTokenSends authToken ++ [⟨404, Body.text "Invalid username."⟩], store)
    | some _ =>
      let destroyedCount := (store.users.filter (fun u => u.username == username)).length
      let remaining := store.users.filter (fun u => !(u.username == username))
      if destroyedCount != 0 then
        (missingTokenSends authToken ++ [⟨200, Body.text "The user has been deleted."⟩],
         { store with users := remaining })
      else
        (missingTokenSends authToken ++ [⟨500, Body.text "Failed to destroy the user."⟩],
         { store with users := remaining })

/-- A concrete stored user used by the concrete evaluations below. -/
def alice : User := ⟨1, "alice", "Alice", "alice@mail.com", hashPassword "pw1"⟩

/-- A second concrete stored user, distinct from alice. -/
def bob : User := ⟨2, "bob", "Bob", "bob@mail.com", hashPassword "pw2"⟩

/-- A store holding the two users and no activity rows. -/
def twoUserStore : Store := ⟨[alice, bob], [], [], []⟩

/-- A concrete update body. -/
def updBody : UpdateBody := ⟨"NewNick", "new@mail.com", "newpw"⟩

/-- Claim C1: the claim says an update request with a valid token and an
existing target applies the supplied fields and succeeds, failing 500 only
when no rows were affected.  The code instead reaches for the userOfInterest
member of the model registry, which is not a registered model, so the update
call throws on every such request: here a valid token for the target itself
and an existing target yield a 500 thrown-error response and an unchanged
store, and the supplied fields are never applied. -/
theorem modifyUser_update_always_throws :
    findUserByUsername twoUserStore "alice" = some alice ∧
    extractUser (some (Token.issued 1)) = some 1 ∧
    ("userOfInterest" ∈ registeredModels → False) ∧
    modifyUserByUsername twoUserStore "alice" (some (Token.issued 1)) updBody =
      ([⟨500, Body.thrownError "TypeError: cannot read update of undefined"⟩], twoUserStore) :=
  ⟨rfl, rfl, by decide, rfl⟩

/-- Claim C2: the guard is identity-blind, and the claim says the mutation is
permitted and applied for any decoded identity.  Identity-blindness holds:
under tokens decoding to alice and to bob, update results coincide and
delete results coincide, and bob's token deletes alice's record.  But the
update mutation is never applied: under bob's token (and equally any other)
the update answers 500 and leaves the store unchanged, because the
userOfInterest member of the model registry is undefined. -/
theorem mutationGuard_identity_blind_but_update_never_applied :
    modifyUserByUsername twoUserStore "alice" (some (Token.issued 1)) updBody =
      modifyUserByUsername twoUserStore "alice" (some (Token.issued 2)) updBody ∧
    deleteUserByUsername twoUserStore "alice" (some (Token.issued 1)) =
      deleteUserByUsername twoUserStore "alice" (some (Token.issued 2)) ∧
    deleteUserByUsername twoUserStore "alice" (some (Token.issued 2)) =
      ([⟨200, Body.text "The user has been deleted."⟩], ⟨[bob], [], [], []⟩) ∧
    modifyUserByUsername twoUserStore "alice" (some (Token.issued 2)) updBody =
      ([⟨500, Body.thrownError "TypeError: cannot read update of undefined"⟩], twoUserStore) :=
  ⟨rfl, rfl, rfl, rfl⟩

/-- Claim C6: the claim says a tokenless update or delete request fails 400,
reaches a terminal rejected state with no further step running, and leaves
the store unchanged.  The store is indeed unchanged and the first send is
the 400, but the handler keeps running past the rejection: the 400 send has
no return after it, so the handler goes on to decode the absent token and
makes a second, 401 send. -/
theorem missingToken_reject_not_terminal :
    modifyUserByUsername twoUserStore "alice" none updBody =
      ([⟨400, Body.errorMessageField "Auth token not provided"⟩,
        ⟨401, Body.errorMessageField "Auth token invalid"⟩], twoUserStore) ∧
    deleteUserByUsername twoUserStore "alice" none =
      ([⟨400, Body.errorMessageField "Auth token not provided"⟩,
        ⟨401, Body.errorMessageField "Auth token invalid"⟩], twoUserStore) :=
  ⟨rfl, rfl⟩

/-- A create body whose username and email are fresh but whose email does not
match the address grammar (the concrete string the repository tests use). -/
def invalidEmailBody : CreateBody := ⟨"carol", "Carol", "qweqwewq", "pw3"⟩

/-- Claim C9, counterexample: with a fresh username and a fresh email the
claim promises a persisted row and a 201, but when the email fails the
address grammar the create call throws, the caught error is answered as a
500 and no row is written. -/
theorem addUser_invalidEmail_counterexample :
    findUserByUsername twoUserStore invalidEmailBody.username = none ∧
    findUserByEmail twoUserStore invalidEmailBody.email = none ∧
    addUser twoUserStore invalidEmailBody 3 =
      ([StoreOp.findByUsername "carol", StoreOp.findByEmail "qweqwewq"],
       ⟨500, Body.thrownError "ValidationError: The email address you entered is invalid"⟩,
       twoUserStore) :=
  ⟨rfl, rfl, rfl⟩

/-- Claim C9, amended: a duplicate username answers 409 with no write; else a
duplicate email answers 409 with no write; else, provided the email matches
the address grammar of the store, a row holding the hashed password is
persisted and the operation answers 201 with a token for the created user. -/
theorem addUser_uniqueness_and_create (store : Store) (body : CreateBody) (nextId : Nat) :
    (∀ w, findUserByUsername store body.username = some w →
      addUser store body nextId =
        ([StoreOp.findByUsername body.username],
         ⟨409, Body.errorField "Username already taken"⟩, store)) ∧
    (findUserByUsername store body.username = none →
      ∀ w, findUserByEmail store body.email = some w →
        addUser store body nextId =
          ([StoreOp.findByUsername body.username, StoreOp.findByEmail body.email],
           ⟨409, Body.errorField "Email has already been taken"⟩, store)) ∧
    (findUserByUsername store body.username = none →
      findUserByEmail store body.email = none →
      validEmail body.email = true →
      addUser store body nextId =
        ([StoreOp.findByUsername body.username, StoreOp.findByEmail body.email,
          StoreOp.insertUser ⟨nextId, body.username, body.nickname, body.email,
            hashPassword body.password⟩],
         ⟨201, Body.messageWithToken "User successfully created" (Token.issued nextId)⟩,
         { store with users := store.users ++
            [⟨nextId, body.username, body.nickname, body.email, hashPassword body.password⟩] })) := by
  refine ⟨?_, ?_, ?_⟩
  · intro w hU
    simp [addUser, hU]
  · intro hU w hE
    simp [addUser, hU, hE]
  · intro hU hE hV
    simp [addUser, hU, hE, hV, generateAuthToken]

/-- Witness for the amended claim C9 at a concrete input: an empty store, a
fresh username and a fresh well-formed email give a 201, a token for the
created user and a store holding the new row. -/
theorem addUser_uniqueness_and_create_witness :
    addUser ⟨[], [], [], []⟩ ⟨"dana", "Dana", "dana@mail.com", "pw4"⟩ 7 =
      ([StoreOp.findByUsername "dana", StoreOp.findByEmail "dana@mail.com",
        StoreOp.insertUser ⟨7, "dana", "Dana", "dana@mail.com", hashPassword "pw4"⟩],
       ⟨201, Body.messageWithToken "User successfully created" (Token.issued 7)⟩,
       ⟨[⟨7, "dana", "Dana", "dana@mail.com", hashPassword "pw4"⟩], [], [], []⟩) :=
  (addUser_uniqueness_and_create ⟨[], [], [], []⟩ ⟨"dana", "Dana", "dana@mail.com", "pw4"⟩ 7).2.2
    rfl rfl rfl

/-- Claim C10: when the requested username is taken the username lookup is
the only store operation performed, the answer is the 409 username error,
and the store is unchanged: the email lookup is never reached even when the
email is also taken, and no row is written. -/
theorem addUser_username_check_first (store : Store) (body : CreateBody) (nextId : Nat)
    (w w2 : User)
    (hU : findUserByUsername store body.username = some w)
    (_hE : findUserByEmail store body.email = some w2) :
    addUser store body nextId =
      ([StoreOp.findByUsername body.username],
       ⟨409, Body.errorField "Username already taken"⟩, store) := by
  simp [addUser, hU]

/-- Witness for claim C10: a request whose username is alice's and whose
email is bob's answers the username-taken 409, with only the username lookup
in the trace and the store unchanged. -/
theorem addUser_username_check_first_witness :
    addUser twoUserStore ⟨"alice", "X", "bob@mail.com", "pw"⟩ 9 =
      ([StoreOp.findByUsername "alice"],
       ⟨409, Body.errorField "Username already taken"⟩, twoUserStore) :=
  addUser_username_check_first twoUserStore ⟨"alice", "X", "bob@mail.com", "pw"⟩ 9 alice bob
    rfl rfl

/-- The comparator keep-before relation is transitive. -/
theorem activityLe_trans (a b c : ActivityEntry) :
    activityLe a b → activityLe b c → activityLe a c := by
  simp only [activityLe, Bool.not_eq_true', decide_eq_false_iff_not, Nat.not_lt]
  omega

/-- The comparator keep-before relation is total. -/
theorem activityLe_total (a b : ActivityEntry) :
    activityLe a b || activityLe b a := by
  simp only [activityLe, Bool.or_eq_true, Bool.not_eq_true', decide_eq_false_iff_not, Nat.not_lt]
  omega

/-- The comparator keep-before relation holds exactly when the timestamp of
the second entry is at most the timestamp of the first. -/
theorem activityLe_iff (a b : ActivityEntry) :
    activityLe a b = true ↔ b.timestamp ≤ a.timestamp := by
  simp only [activityLe, Bool.not_eq_true', decide_eq_false_iff_not, Nat.not_lt]

/-- Claim C3: for an existing target and a decodable token, the activity
result is a single 200 response whose entries are exactly (as a multiset)
one POSTED entry per authored post carrying the post id and the post
creation timestamp, one LIKED entry per like record carrying the referenced
post id and the like creation timestamp, and one SHARED entry per share
record carrying the referenced post id (not the share record id) and the
share creation timestamp. -/
theorem getUserActivity_entries (store : Store) (username : String) (tok : Token)
    (actorId : Nat) (target : User)
    (hTok : extractUser (some tok) = some actorId)
    (hUser : findUserByUsername store username = some target) :
    ∃ entries,
      getUserActivity store username (some tok) = [⟨200, Body.activityList entries⟩] ∧
      entries.Perm
        ((store.posts.filter (fun p => p.author == target.id)).map
            (fun p => convertToActivity ActivityKind.POSTED p.id p.createdAt) ++
          (store.likedPost.filter (fun lp => lp.userID == target.id)).map
            (fun lp => convertToActivity ActivityKind.LIKED lp.postId lp.createdAt) ++
          (store.sharedPost.filter (fun sp => sp.userID == target.id)).map
            (fun sp => convertToActivity ActivityKind.SHARED sp.postId sp.createdAt)) := by
  refine ⟨mergedActivity store target, ?_, ?_⟩
  · simp [getUserActivity, missingTokenSends, hTok, hUser]
  · exact List.mergeSort_perm
      (postsActivity store target ++ likedPostsActivity store target ++
        sharedPostsActivity store target) activityLe

/-- Claim C4: for an existing target and a decodable token, the activity
result is a permutation of the concatenation of the POSTED, LIKED and SHARED
entry sequences, in that order, and every entry has a timestamp at least the
timestamp of every later entry. -/
theorem getUserActivity_sorted (store : Store) (username : String) (tok : Token)
    (actorId : Nat) (target : User)
    (hTok : extractUser (some tok) = some actorId)
    (hUser : findUserByUsername store username = some target) :
    ∃ entries,
      getUserActivity store username (some tok) = [⟨200, Body.activityList entries⟩] ∧
      entries.Perm (postsActivity store target ++ likedPostsActivity store target ++
        sharedPostsActivity store target) ∧
      entries.Pairwise (fun a b => b.timestamp ≤ a.timestamp) := by
  refine ⟨mergedActivity store target, ?_, ?_, ?_⟩
  · simp [getUserActivity, missingTokenSends, hTok, hUser]
  · exact List.mergeSort_perm
      (postsActivity store target ++ likedPostsActivity store target ++
        sharedPostsActivity store target) activityLe
  · have h : (mergedActivity store target).Pairwise (fun a b => activityLe a b = true) :=
      List.sorted_mergeSort activityLe_trans activityLe_total
        (postsActivity store target ++ likedPostsActivity store target ++
          sharedPostsActivity store target)
    exact h.imp (fun hab => (activityLe_iff _ _).mp hab)

/-- A concrete authored post of alice. -/
def post1 : Post := ⟨10, 1, 100⟩

/-- A concrete share record of alice referencing post 11. -/
def share1 : SharedPost := ⟨21, 1, 11, 300⟩

/-- A concrete like record of alice referencing post 12. -/
def like1 : LikedPost := ⟨31, 1, 12, 200⟩

/-- The two-user store extended with one post, one share and one like. -/
def actStore : Store := ⟨[alice, bob], [post1], [share1], [like1]⟩

/-- Witness for claim C3 at a concrete input: bob's token and target alice,
with one authored post, one share and one like in the store. -/
theorem getUserActivity_entries_witness :
    extractUser (some (Token.issued 2)) = some 2 ∧
    findUserByUsername actStore "alice" = some alice ∧
    ∃ entries,
      getUserActivity actStore "alice" (some (Token.issued 2)) =
        [⟨200, Body.activityList entries⟩] ∧
      entries.Perm
        ((actStore.posts.filter (fun p => p.author == alice.id)).map
            (fun p => convertToActivity ActivityKind.POSTED p.id p.createdAt) ++
          (actStore.likedPost.filter (fun lp => lp.userID == alice.id)).map
            (fun lp => convertToActivity ActivityKind.LIKED lp.postId lp.createdAt) ++
          (actStore.sharedPost.filter (fun sp => sp.userID == alice.id)).map
            (fun sp => convertToActivity ActivityKind.SHARED sp.postId sp.createdAt)) :=
  ⟨rfl, rfl, getUserActivity_entries actStore "alice" (Token.issued 2) 2 alice rfl rfl⟩

/-- Witness for claim C4 at a concrete input: bob's token and target alice,
with one authored post, one share and one like in the store. -/
theorem getUserActivity_sorted_witness :
    extractUser (some (Token.issued 2)) = some 2 ∧
    findUserByUsername actStore "alice" = some alice ∧
    ∃ entries,
      getUserActivity actStore "alice" (some (Token.issued 2)) =
        [⟨200, Body.activityList entries⟩] ∧
      entries.Perm (postsActivity actStore alice ++ likedPostsActivity actStore alice ++
        sharedPostsActivity actStore alice) ∧
      entries.Pairwise (fun a b => b.timestamp ≤ a.timestamp) :=
  ⟨rfl, rfl, getUserActivity_sorted actStore "alice" (Token.issued 2) 2 alice rfl rfl⟩

/-- Claim C7: authenticating with an email resolving to a stored user and a
password verifying against the stored digest answers 200 with a token that
decodes back to the id of that user; an email resolving to no user, or a
password failing verification, answers 401 with the fixed error body. -/
theorem authenticateUser_contract (store : Store) (email password : String) :
    (∀ user, findUserByEmail store email = some user →
      (user.password = hashPassword password →
        authenticateUser store email password =
          ⟨200, Body.messageWithToken "Authentication successful" (Token.issued user.id)⟩ ∧
        extractUser (some (generateAuthToken user)) = some user.id) ∧
      (user.password ≠ hashPassword password →
        authenticateUser store email password =
          ⟨401, Body.errorField "Incorrect email or password"⟩)) ∧
    (findUserByEmail store email = none →
      authenticateUser store email password =
        ⟨401, Body.errorField "Incorrect email or password"⟩) := by
  constructor
  · intro user hU
    constructor
    · intro hpw
      constructor
      · simp [authenticateUser, hU, validatePassword, hpw, generateAuthToken]
      · simp [extractUser, generateAuthToken]
    · intro hpw
      simp [authenticateUser, hU, validatePassword, hpw]
  · intro hU
    simp [authenticateUser, hU]

/-- Witness for claim C7 at concrete inputs: alice with the right password
gets 200 and a token decoding to her id; a wrong password and an unknown
email each get the 401 error body. -/
theorem authenticateUser_contract_witness :
    (authenticateUser twoUserStore "alice@mail.com" "pw1" =
        ⟨200, Body.messageWithToken "Authentication successful" (Token.issued 1)⟩ ∧
      extractUser (some (generateAuthToken alice)) = some 1) ∧
    authenticateUser twoUserStore "alice@mail.com" "wrong" =
      ⟨401, Body.errorField "Incorrect email or password"⟩ ∧
    authenticateUser twoUserStore "nobody@mail.com" "pw1" =
      ⟨401, Body.errorField "Incorrect email or password"⟩ :=
  ⟨((authenticateUser_contract twoUserStore "alice@mail.com" "pw1").1 alice rfl).1 rfl,
   ((authenticateUser_contract twoUserStore "alice@mail.com" "wrong").1 alice rfl).2
     (by decide),
   (authenticateUser_contract twoUserStore "nobody@mail.com" "pw1").2 rfl⟩

/-- Claim C8: with a decodable token, deleting a username that resolves to no
user answers 404 and leaves the store unchanged; deleting an existing user
removes the matching rows, of which there is at least one, so the destroyed
count is nonzero and the operation answers 200 rather than the 500 the code
reserves for a zero destroyed count. -/
theorem deleteUserByUsername_contract (store : Store) (username : String) (tok : Token)
    (actorId : Nat) (hTok : extractUser (some tok) = some actorId) :
    (findUserByUsername store username = none →
      deleteUserByUsername store username (some tok) =
        ([⟨404, Body.text "Invalid username."⟩], store)) ∧
    (∀ target, findUserByUsername store username = some target →
      (store.users.filter (fun u => u.username == username)).length ≠ 0 ∧
      deleteUserByUsername store username (some tok) =
        ([⟨200, Body.text "The user has been deleted."⟩],
         { store with users := store.users.filter (fun u => !(u.username == username)) })) := by
  constructor
  · intro hU
    simp [deleteUserByUsername, missingTokenSends, hTok, hU]
  · intro target hU
    have hU2 : store.users.find? (fun u => u.username == username) = some target := hU
    have hmem : target ∈ store.users := List.mem_of_find?_eq_some hU2
    have hpred := List.find?_some hU2
    have hfil : target ∈ store.users.filter (fun u => u.username == username) :=
      List.mem_filter.mpr ⟨hmem, hpred⟩
    have hlen : (store.users.filter (fun u => u.username == username)).length ≠ 0 := by
      intro h0
      rw [List.length_eq_zero] at h0
      rw [h0] at hfil
      exact (List.not_mem_nil target) hfil
    refine ⟨hlen, ?_⟩
    simp [deleteUserByUsername, missingTokenSends, hTok, hU, hlen]

/-- Witness for claim C8 at concrete inputs: with bob's token, deleting the
unknown username carol answers 404 and changes nothing, and deleting alice
answers 200 and leaves only bob in the store. -/
theorem deleteUserByUsername_contract_witness :
    deleteUserByUsername twoUserStore "carol" (some (Token.issued 2)) =
      ([⟨404, Body.text "Invalid username."⟩], twoUserStore) ∧
    deleteUserByUsername twoUserStore "alice" (some (Token.issued 2)) =
      ([⟨200, Body.text "The user has been deleted."⟩], ⟨[bob], [], [], []⟩) :=
  ⟨(deleteUserByUsername_contract twoUserStore "carol" (Token.issued 2) 2 rfl).1 rfl,
   ((deleteUserByUsername_contract twoUserStore "alice" (Token.issued 2) 2 rfl).2 alice rfl).2⟩

end Updog
